import Mathlib

/-!
Shallow embedding of the PEC-tuples compact particle data model
(`pec::Candidate`, `pec::GenParticle`, `pec::Lepton`).

Machine-integer storage is modelled over `Int` with the narrowing
conversions written out explicitly:
  * `Char_t` (signed one byte) storage narrows through `charTrunc`,
    the modular wrap into `[-128, 127]` performed by the C++
    conversion `long -> char` on common platforms;
  * `UChar_t` (unsigned one byte) storage narrows through `ucharTrunc`,
    the conversion `int -> unsigned char`, which is modular reduction
    into `[0, 255]` by the standard;
  * the C++ `%` operator truncates toward zero, hence `Int.tmod`.
Floating-point fields are modelled over `Rat`; the claims about them
only involve exact values and sign handling.
Methods that may throw are embedded as functions into
`Except PecError _`; a method body that throws before any field
assignment is embedded as returning `Except.error` without producing
any new state, which mirrors the C++ strong guarantee at those sites.
-/

/-- Error kinds raised by the record mutators (spec section 7); the C++
code signals them with `std::runtime_error`. -/
inductive PecError where
  | invalidArgument
deriving DecidableEq, Repr

/-- Narrowing of an unbounded integer into signed one-byte `Char_t`
storage: modular wrap into `[-128, 127]`. -/
def charTrunc (x : Int) : Int :=
  (x + 128) % 256 - 128

/-- Narrowing of an integer into unsigned one-byte `UChar_t` storage:
modular reduction into `[0, 255]`. -/
def ucharTrunc (x : Int) : Int :=
  x % 256

/-- Modelled from the spec: the `Candidate` base class
(`UserCode/SingleTop/interface/Candidate.h`) is not among the
repository sources, only its use in `GenParticle` is.  Per spec
section 4.1 it stores the four-momentum components `pt`, `eta`,
`phi`, `mass`, its setters store the value verbatim, its getters
return the stored value, and `Reset` zeroes all four fields. -/
structure Candidate where
  pt : Rat
  eta : Rat
  phi : Rat
  mass : Rat
deriving DecidableEq, Repr

/-- Modelled from the spec: default-constructed `Candidate` state,
identical to the state after `Reset` (spec sections 3 and 8). -/
def Candidate.mk0 : Candidate :=
  ⟨0, 0, 0, 0⟩

/-- Modelled from the spec: `Candidate::Reset` sets `pt`, `eta`,
`phi`, `mass` to 0 (spec section 4.1). -/
def Candidate.Reset (_ : Candidate) : Candidate :=
  ⟨0, 0, 0, 0⟩

/-- Modelled from the spec: `Candidate::SetPt` stores verbatim. -/
def Candidate.SetPt (c : Candidate) (v : Rat) : Candidate :=
  { c with pt := v }

/-- Modelled from the spec: `Candidate::SetEta` stores verbatim. -/
def Candidate.SetEta (c : Candidate) (v : Rat) : Candidate :=
  { c with eta := v }

/-- Modelled from the spec: `Candidate::SetPhi` stores verbatim. -/
def Candidate.SetPhi (c : Candidate) (v : Rat) : Candidate :=
  { c with phi := v }

/-- Modelled from the spec: `Candidate::SetMass` stores verbatim. -/
def Candidate.SetMass (c : Candidate) (v : Rat) : Candidate :=
  { c with mass := v }

/-- State of a `pec::GenParticle` (interface/GenParticle.h): the
`Candidate` base subobject, the PDG ID in `Char_t` storage, and the
two mother indices in `UChar_t` storage.  The storage invariants
(`pdgId ∈ [-128,127]`, indices `∈ [0,255]`) are maintained by the
narrowing conversions inside the mutators. -/
structure GenParticle where
  base : Candidate
  pdgId : Int
  firstMotherIndex : Int
  lastMotherIndex : Int
deriving DecidableEq, Repr

/-- Default constructor `GenParticle::GenParticle()`: `pdgId = 0`,
both mother indices `= 0` (the stored sentinel); the `Candidate` base
is default-constructed. -/
def GenParticle.mk0 : GenParticle :=
  ⟨Candidate.mk0, 0, 0, 0⟩

/-- Copy constructor `GenParticle::GenParticle(GenParticle const &)`:
copies the `Candidate` base and the three fields by value. -/
def GenParticle.copyCtor (src : GenParticle) : GenParticle :=
  ⟨src.base, src.pdgId, src.firstMotherIndex, src.lastMotherIndex⟩

/-- Assignment `GenParticle::operator=`: assigns the `Candidate` base
and then the three fields from `src`, returning the updated object. -/
def GenParticle.opAssign (_self src : GenParticle) : GenParticle :=
  ⟨src.base, src.pdgId, src.firstMotherIndex, src.lastMotherIndex⟩

/-- `GenParticle::Reset`: resets the `Candidate` base, then sets
`pdgId = 0` and both stored mother indices to 0. -/
def GenParticle.Reset (g : GenParticle) : GenParticle :=
  { g with
      base := g.base.Reset
      pdgId := 0
      firstMotherIndex := 0
      lastMotherIndex := 0 }

/-- `GenParticle::SetPdgId(long)`: if `|id| > 30000` fold the value to
`(id > 0 ? 30000 : -30000) + id % 1000` (C++ `%` truncates toward
zero), else keep it; the result is then narrowed into the `Char_t`
field.  The method body contains no throw. -/
def GenParticle.SetPdgId (g : GenParticle) (pdgId_ : Int) :
    Except PecError GenParticle :=
  let v : Int :=
    if 30000 < |pdgId_| then
      (if 0 < pdgId_ then 30000 else -30000) + Int.tmod pdgId_ 1000
    else
      pdgId_
  .ok { g with pdgId := charTrunc v }

/-- `GenParticle::SetFirstMotherIndex(int)`: throws when
`index < -1`; otherwise stores `index + 1` narrowed into the
`UChar_t` field.  The throw precedes any field assignment. -/
def GenParticle.SetFirstMotherIndex (g : GenParticle) (index : Int) :
    Except PecError GenParticle :=
  if index < -1 then
    .error .invalidArgument
  else
    .ok { g with firstMotherIndex := ucharTrunc (index + 1) }

/-- `GenParticle::SetLastMotherIndex(int)`: same checks and encoding
as `SetFirstMotherIndex`, writing the `lastMotherIndex` field. -/
def GenParticle.SetLastMotherIndex (g : GenParticle) (index : Int) :
    Except PecError GenParticle :=
  if index < -1 then
    .error .invalidArgument
  else
    .ok { g with lastMotherIndex := ucharTrunc (index + 1) }

/-- `GenParticle::PdgId() const`: returns the stored `Char_t` value
sign-extended to `long`. -/
def GenParticle.PdgId (g : GenParticle) : Int :=
  g.pdgId

/-- `GenParticle::FirstMotherIndex() const`: returns
`firstMotherIndex - 1`. -/
def GenParticle.FirstMotherIndex (g : GenParticle) : Int :=
  g.firstMotherIndex - 1

/-- `GenParticle::LastMotherIndex() const`: returns
`lastMotherIndex - 1`. -/
def GenParticle.LastMotherIndex (g : GenParticle) : Int :=
  g.lastMotherIndex - 1

/-- Four-momentum setter of the `Candidate` base visible on a
`GenParticle` (inherited `SetPt`). -/
def GenParticle.SetPt (g : GenParticle) (v : Rat) : GenParticle :=
  { g with base := g.base.SetPt v }

/-- Inherited `SetEta` on a `GenParticle`. -/
def GenParticle.SetEta (g : GenParticle) (v : Rat) : GenParticle :=
  { g with base := g.base.SetEta v }

/-- Inherited `SetPhi` on a `GenParticle`. -/
def GenParticle.SetPhi (g : GenParticle) (v : Rat) : GenParticle :=
  { g with base := g.base.SetPhi v }

/-- Inherited `SetMass` on a `GenParticle`. -/
def GenParticle.SetMass (g : GenParticle) (v : Rat) : GenParticle :=
  { g with base := g.base.SetMass v }

/-- Inherited `Pt` getter on a `GenParticle`. -/
def GenParticle.Pt (g : GenParticle) : Rat :=
  g.base.pt

/-- Inherited `Eta` getter on a `GenParticle`. -/
def GenParticle.Eta (g : GenParticle) : Rat :=
  g.base.eta

/-- Inherited `Phi` getter on a `GenParticle`. -/
def GenParticle.Phi (g : GenParticle) : Rat :=
  g.base.phi

/-- Inherited `Mass` getter on a `GenParticle`. -/
def GenParticle.Mass (g : GenParticle) : Rat :=
  g.base.mass

/-- All observables of a `GenParticle` through its public getters. -/
def GenParticle.observe (g : GenParticle) :
    Int × Int × Int × Rat × Rat × Rat × Rat :=
  (g.PdgId, g.FirstMotherIndex, g.LastMotherIndex,
   g.Pt, g.Eta, g.Phi, g.Mass)

/-- Running a possibly-throwing mutator under C++ exception semantics:
on a throw the object keeps its prior state. -/
def tryMut (g : GenParticle)
    (m : GenParticle → Except PecError GenParticle) : GenParticle :=
  match m g with
  | .ok g' => g'
  | .error _ => g

/-- Two-object world for the copy-independence property: the source
object together with a copy of it transformed by a mutation; the
first component is the source after the mutation of the copy. -/
def mutateCopy (src : GenParticle) (m : GenParticle → GenParticle) :
    GenParticle × GenParticle :=
  (src, m (GenParticle.copyCtor src))

/-- Modelled from the spec: `Lepton` state (interface/Lepton.h gives
only the field declarations; `Lepton.cc` is not among the repository
sources).  Per the header and spec section 3: the `CandidateWithID`
base (a `Candidate` plus a packed `idBits` field), the charge flag
(`true` means negative charge), the relative isolation and the
impact parameter. -/
structure Lepton where
  base : Candidate
  idBits : Nat
  charge : Bool
  relIso : Rat
  dB : Rat
deriving DecidableEq, Repr

/-- Modelled from the spec: default-constructed `Lepton` (charge flag
false, all numeric fields zero). -/
def Lepton.mk0 : Lepton :=
  ⟨Candidate.mk0, 0, false, 0, 0⟩

/-- Modelled from the spec: `Lepton::SetCharge` (declaration at
interface/Lepton.h, body not among the sources) throws when the
argument is zero and otherwise records only the sign, the stored flag
being `true` for negative charge (spec section 4.3). -/
def Lepton.SetCharge (l : Lepton) (c : Int) : Except PecError Lepton :=
  if c = 0 then
    .error .invalidArgument
  else
    .ok { l with charge := c < 0 }

/-- Modelled from the spec: `Lepton::Charge` returns `-1` when the
stored flag marks a negative charge and `+1` otherwise. -/
def Lepton.Charge (l : Lepton) : Int :=
  if l.charge then -1 else 1

/-- Modelled from the spec: `Lepton::SetDB` stores the absolute value
of its argument ("stored and later retrieved value must be the
absolute value of what was set", spec section 4.3). -/
def Lepton.SetDB (l : Lepton) (v : Rat) : Lepton :=
  { l with dB := |v| }

/-- Modelled from the spec: `Lepton::DB` returns the stored value. -/
def Lepton.DB (l : Lepton) : Rat :=
  l.dB

/-- C1: the claim states that after `SetPdgId(id)` the getter returns
`id` itself for `|id| ≤ 30000` and the folded value for larger `|id|`;
in particular `SetPdgId(211)` then `PdgId() == 211` and
`SetPdgId(30005)` then `PdgId() == 30005`.  The code stores the
(possibly folded) value in a signed one-byte `Char_t` field, so
`PdgId()` returns the value wrapped into `[-128,127]`: `-45` for input
`211` and `53` for input `30005`, contradicting the claim (and the
header's own promise of an exception when the ID does not fit in
`Char_t`). -/
theorem setPdgId_char_storage_truncates :
    (GenParticle.SetPdgId GenParticle.mk0 211).map GenParticle.PdgId = .ok (-45) ∧
    (GenParticle.SetPdgId GenParticle.mk0 30005).map GenParticle.PdgId = .ok 53 ∧
    (-45 : Int) ≠ 211 ∧ (53 : Int) ≠ 30005 :=
  ⟨rfl, rfl, by decide, by decide⟩

/-- C2 counterexample: the claim states that every index above 253 is
rejected like an index below -1; in fact `SetFirstMotherIndex` and
`SetLastMotherIndex` accept 254 and store it (encoded as 255). -/
theorem setMotherIndex_accepts_254 :
    GenParticle.SetFirstMotherIndex GenParticle.mk0 254 =
      .ok { GenParticle.mk0 with firstMotherIndex := 255 } ∧
    GenParticle.SetLastMotherIndex GenParticle.mk0 254 =
      .ok { GenParticle.mk0 with lastMotherIndex := 255 } :=
  ⟨rfl, rfl⟩

/-- C2 amended: `SetFirstMotherIndex` and `SetLastMotherIndex` fail
with InvalidArgument exactly when `index < -1`; indices above 253 are
not rejected but silently wrapped modulo 256 by the one-byte
storage. -/
theorem setMotherIndex_reject_iff (g : GenParticle) (index : Int) :
    (GenParticle.SetFirstMotherIndex g index = .error .invalidArgument ↔ index < -1) ∧
    (GenParticle.SetLastMotherIndex g index = .error .invalidArgument ↔ index < -1) := by
  unfold GenParticle.SetFirstMotherIndex GenParticle.SetLastMotherIndex
  constructor <;> split <;> simp_all

/-- C3: for every `index ∈ {-1, …, 253}`, `SetFirstMotherIndex(index)`
succeeds and the getter `FirstMotherIndex()` returns `index` again
(the getter decodes as stored value minus one, with the stored
sentinel 0 decoding to -1); likewise for the last-mother pair. -/
theorem motherIndex_roundTrip (g : GenParticle) (index : Int)
    (h1 : -1 ≤ index) (h2 : index ≤ 253) :
    (∃ g', GenParticle.SetFirstMotherIndex g index = .ok g' ∧
       GenParticle.FirstMotherIndex g' = index) ∧
    (∃ g', GenParticle.SetLastMotherIndex g index = .ok g' ∧
       GenParticle.LastMotherIndex g' = index) := by
  have hnot : ¬ index < -1 := by omega
  refine ⟨⟨{ g with firstMotherIndex := ucharTrunc (index + 1) }, ?_, ?_⟩,
          ⟨{ g with lastMotherIndex := ucharTrunc (index + 1) }, ?_, ?_⟩⟩
  · unfold GenParticle.SetFirstMotherIndex; rw [if_neg hnot]
  · show ucharTrunc (index + 1) - 1 = index
    unfold ucharTrunc; omega
  · unfold GenParticle.SetLastMotherIndex; rw [if_neg hnot]
  · show ucharTrunc (index + 1) - 1 = index
    unfold ucharTrunc; omega

/-- C3 witness: the round trip at index 7 on a default-constructed
particle. -/
theorem motherIndex_roundTrip_witness :
    (∃ g', GenParticle.SetFirstMotherIndex GenParticle.mk0 7 = .ok g' ∧
       GenParticle.FirstMotherIndex g' = 7) ∧
    (∃ g', GenParticle.SetLastMotherIndex GenParticle.mk0 7 = .ok g' ∧
       GenParticle.LastMotherIndex g' = 7) :=
  motherIndex_roundTrip GenParticle.mk0 7 (by decide) (by decide)

/-- C4: for every `index < -1` both mother-index setters fail with
InvalidArgument, and the failing call leaves the object unchanged
(the throw precedes any field assignment, so running the mutator
under exception semantics returns the prior state). -/
theorem setMotherIndex_neg_rejected (g : GenParticle) (index : Int)
    (h : index < -1) :
    GenParticle.SetFirstMotherIndex g index = .error .invalidArgument ∧
    GenParticle.SetLastMotherIndex g index = .error .invalidArgument ∧
    tryMut g (fun x => GenParticle.SetFirstMotherIndex x index) = g ∧
    tryMut g (fun x => GenParticle.SetLastMotherIndex x index) = g := by
  have h1 : GenParticle.SetFirstMotherIndex g index = .error .invalidArgument := by
    unfold GenParticle.SetFirstMotherIndex; rw [if_pos h]
  have h2 : GenParticle.SetLastMotherIndex g index = .error .invalidArgument := by
    unfold GenParticle.SetLastMotherIndex; rw [if_pos h]
  exact ⟨h1, h2, by simp [tryMut, h1], by simp [tryMut, h2]⟩

/-- C4 witness: `SetFirstMotherIndex(-2)` and `SetLastMotherIndex(-2)`
fail with InvalidArgument on a default-constructed particle and leave
it unchanged. -/
theorem setMotherIndex_neg_rejected_witness :
    GenParticle.SetFirstMotherIndex GenParticle.mk0 (-2) = .error .invalidArgument ∧
    GenParticle.SetLastMotherIndex GenParticle.mk0 (-2) = .error .invalidArgument ∧
    tryMut GenParticle.mk0 (fun x => GenParticle.SetFirstMotherIndex x (-2)) = GenParticle.mk0 ∧
    tryMut GenParticle.mk0 (fun x => GenParticle.SetLastMotherIndex x (-2)) = GenParticle.mk0 :=
  setMotherIndex_neg_rejected GenParticle.mk0 (-2) (by decide)

/-- C5: `SetPdgId` never fails: for every integer argument, including
arguments of magnitude above 30000, the call returns a new state and
no error (the method body contains no throw; overflow is handled by
the silent lossy fold followed by the storage narrowing). -/
theorem setPdgId_never_fails (g : GenParticle) (pdgId_ : Int) :
    ∃ g', GenParticle.SetPdgId g pdgId_ = .ok g' :=
  ⟨_, rfl⟩

/-- C6: `SetCharge` fails with InvalidArgument exactly when the
argument is zero; for every nonzero argument it records only the
sign, so `Charge()` afterwards returns `+1` for positive and `-1`
for negative arguments. -/
theorem setCharge_sign (l : Lepton) (c : Int) :
    (Lepton.SetCharge l c = .error .invalidArgument ↔ c = 0) ∧
    (0 < c → ∃ l', Lepton.SetCharge l c = .ok l' ∧ Lepton.Charge l' = 1) ∧
    (c < 0 → ∃ l', Lepton.SetCharge l c = .ok l' ∧ Lepton.Charge l' = -1) := by
  refine ⟨?_, ?_, ?_⟩
  · unfold Lepton.SetCharge
    split <;> simp_all
  · intro hc
    have hne : ¬ c = 0 := by omega
    have hflag : decide (c < 0) = false := by simp; omega
    refine ⟨{ l with charge := decide (c < 0) }, ?_, ?_⟩
    · unfold Lepton.SetCharge; rw [if_neg hne]
    · simp [Lepton.Charge, hflag]
  · intro hc
    have hne : ¬ c = 0 := by omega
    have hflag : decide (c < 0) = true := by simpa using hc
    refine ⟨{ l with charge := decide (c < 0) }, ?_, ?_⟩
    · unfold Lepton.SetCharge; rw [if_neg hne]
    · simp [Lepton.Charge, hflag]

/-- C6 witness: `SetCharge(0)` fails with InvalidArgument;
`SetCharge(5)` yields `Charge() == 1`; `SetCharge(-3)` yields
`Charge() == -1`. -/
theorem setCharge_sign_witness :
    Lepton.SetCharge Lepton.mk0 0 = .error .invalidArgument ∧
    (∃ l', Lepton.SetCharge Lepton.mk0 5 = .ok l' ∧ Lepton.Charge l' = 1) ∧
    (∃ l', Lepton.SetCharge Lepton.mk0 (-3) = .ok l' ∧ Lepton.Charge l' = -1) :=
  ⟨(setCharge_sign Lepton.mk0 0).1.mpr rfl,
   (setCharge_sign Lepton.mk0 5).2.1 (by decide),
   (setCharge_sign Lepton.mk0 (-3)).2.2 (by decide)⟩

/-- C7: after `SetDB(v)` the getter `DB()` returns the absolute value
of `v`, and the returned value is never negative. -/
theorem setDB_abs (l : Lepton) (v : Rat) :
    Lepton.DB (Lepton.SetDB l v) = |v| ∧ 0 ≤ Lepton.DB (Lepton.SetDB l v) :=
  ⟨rfl, abs_nonneg v⟩

/-- C8: `Reset` is idempotent and restores the default-constructed
state: from any state, `Reset` yields exactly the state of a
default-constructed `GenParticle`, with `PdgId() == 0` and both
mother-index getters returning -1. -/
theorem reset_idempotent_default (g : GenParticle) :
    GenParticle.Reset (GenParticle.Reset g) = GenParticle.Reset g ∧
    GenParticle.Reset g = GenParticle.mk0 ∧
    GenParticle.PdgId (GenParticle.Reset g) = 0 ∧
    GenParticle.FirstMotherIndex (GenParticle.Reset g) = -1 ∧
    GenParticle.LastMotherIndex (GenParticle.Reset g) = -1 :=
  ⟨rfl, rfl, rfl, rfl, rfl⟩

/-- C9: copy construction and assignment produce an independent deep
value copy: the copy constructor and `operator=` copy every field of
the source, and mutating the copy (via `SetPdgId`, the mother-index
setters, or the four-momentum setters) leaves every observable of the
source instance unchanged. -/
theorem copy_independence (g : GenParticle) :
    GenParticle.copyCtor g = g ∧
    (∀ d, GenParticle.opAssign d g = g) ∧
    (∀ id, GenParticle.observe
      (mutateCopy g (fun x => tryMut x (fun y => GenParticle.SetPdgId y id))).1 =
      GenParticle.observe g) ∧
    (∀ index, GenParticle.observe
      (mutateCopy g (fun x => tryMut x (fun y => GenParticle.SetFirstMotherIndex y index))).1 =
      GenParticle.observe g) ∧
    (∀ index, GenParticle.observe
      (mutateCopy g (fun x => tryMut x (fun y => GenParticle.SetLastMotherIndex y index))).1 =
      GenParticle.observe g) ∧
    (∀ v, GenParticle.observe (mutateCopy g (fun x => GenParticle.SetPt x v)).1 =
      GenParticle.observe g) ∧
    (∀ v, GenParticle.observe (mutateCopy g (fun x => GenParticle.SetEta x v)).1 =
      GenParticle.observe g) ∧
    (∀ v, GenParticle.observe (mutateCopy g (fun x => GenParticle.SetPhi x v)).1 =
      GenParticle.observe g) ∧
    (∀ v, GenParticle.observe (mutateCopy g (fun x => GenParticle.SetMass x v)).1 =
      GenParticle.observe g) :=
  ⟨rfl, fun _ => rfl, fun _ => rfl, fun _ => rfl, fun _ => rfl,
   fun _ => rfl, fun _ => rfl, fun _ => rfl, fun _ => rfl⟩

/-- C10: for every `index ≥ -1` the mother-index setters succeed and
store `(index + 1) mod 256` in the one-byte field, so the getters
return `((index + 1) mod 256) - 1`; in particular index 254 still
round-trips while index 255 decodes to -1, indistinguishable from the
no-mother sentinel. -/
theorem motherIndex_wrap (g : GenParticle) (index : Int)
    (h : -1 ≤ index) :
    (∃ g', GenParticle.SetFirstMotherIndex g index = .ok g' ∧
       GenParticle.FirstMotherIndex g' = (index + 1) % 256 - 1) ∧
    (∃ g', GenParticle.SetLastMotherIndex g index = .ok g' ∧
       GenParticle.LastMotherIndex g' = (index + 1) % 256 - 1) := by
  have hnot : ¬ index < -1 := by omega
  refine ⟨⟨{ g with firstMotherIndex := ucharTrunc (index + 1) }, ?_, rfl⟩,
          ⟨{ g with lastMotherIndex := ucharTrunc (index + 1) }, ?_, rfl⟩⟩
  · unfold GenParticle.SetFirstMotherIndex; rw [if_neg hnot]
  · unfold GenParticle.SetLastMotherIndex; rw [if_neg hnot]

/-- C10 witness: at index 255 the setters succeed and the getters
return `(255 + 1) % 256 - 1`, that is -1, the sentinel value. -/
theorem motherIndex_wrap_witness :
    ((∃ g', GenParticle.SetFirstMotherIndex GenParticle.mk0 255 = .ok g' ∧
       GenParticle.FirstMotherIndex g' = (255 + 1) % 256 - 1) ∧
     (∃ g', GenParticle.SetLastMotherIndex GenParticle.mk0 255 = .ok g' ∧
       GenParticle.LastMotherIndex g' = (255 + 1) % 256 - 1)) ∧
    ((255 : Int) + 1) % 256 - 1 = -1 :=
  ⟨motherIndex_wrap GenParticle.mk0 255 (by decide), by decide⟩
